import Mathlib

/-!
Shallow embedding of the renovation-cost backend (controllers/api/projects.js and
models/project.js) for verification of its natural-language specification.

Modelling conventions:
* JavaScript numbers are modelled as rationals (ℚ); `Number(x) || 0` is the
  identity on ℚ (only `0`/`NaN` are falsy and `0 || 0 = 0`).
* JavaScript strings are Lean `String`s; an absent/undefined string field is
  modelled as `""` (both are falsy in the source's truthiness tests).
* `s.trim()`, `s.toLowerCase()`, `s.startsWith(p)` are modelled by `jsTrim`,
  `jsToLower`, `jsStartsWith`, defined over the character list of the string
  exactly as the ECMAScript operations behave on the ASCII data this backend
  handles.
* `parseFloat` on a numeric field is the identity; `parseInt` on a numeric
  field truncates toward zero (`ratTrunc`).
* `x.toFixed(2)` followed by `Number(...)` is `round2`: round half-up at the
  second decimal (ECMAScript toFixed picks the larger candidate on ties).
* Array `reduce`/`forEach`-style accumulation is rendered with `List.foldl`;
  persistence, logging and HTTP plumbing are outside the embedded core.
-/

/-- Model of ECMAScript `String.prototype.trim`: strip whitespace at both ends. -/
def jsTrim (s : String) : String :=
  ⟨((s.data.dropWhile Char.isWhitespace).reverse.dropWhile Char.isWhitespace).reverse⟩

/-- ASCII case-folding of one character, as `toLowerCase` acts on this data. -/
def jsToLowerChar (c : Char) : Char :=
  if 'A' ≤ c ∧ c ≤ 'Z' then Char.ofNat (c.toNat + 32) else c

/-- Model of ECMAScript `String.prototype.toLowerCase` on ASCII data. -/
def jsToLower (s : String) : String := ⟨s.data.map jsToLowerChar⟩

/-- Model of ECMAScript `String.prototype.startsWith`. -/
def jsStartsWith (s pre : String) : Bool := pre.data.isPrefixOf s.data

/-- JavaScript `a || b` for strings: `""` (and absent) are falsy. -/
def jsOr (a b : String) : String := if a = "" then b else a

/-- JavaScript `parseInt` applied to a numeric value: truncation toward zero. -/
def ratTrunc (q : ℚ) : ℚ := if 0 ≤ q then (⌊q⌋ : ℚ) else (⌈q⌉ : ℚ)

/-- `Number(x.toFixed(2))`: round to 2 decimal places, ties away from the
smaller candidate (half-up), exactly once. -/
def round2 (q : ℚ) : ℚ := (round (q * 100) : ℤ) / 100

/-- Surface sub-document (models/project.js `surfaceSchema`).  `measurementType`
is a free-form string; `""` models an absent value. -/
structure Surface where
  name : String
  measurementType : String
  width : ℚ
  height : ℚ
  sqft : ℚ
  manualSqft : Bool
  linearFt : ℚ
  units : ℚ
  length : ℚ
deriving Repr, DecidableEq

/-- Work-item sub-document (models/project.js `workItemSchema`); the same shape
carries raw caller input (absent string fields are `""`). -/
structure WorkItem where
  name : String
  customWorkTypeName : String
  type : String
  subtype : String
  description : String
  surfaces : List Surface
  materialCost : ℚ
  laborCost : ℚ
  notes : String
  measurementType : String
  categoryKey : String
deriving Repr, DecidableEq

/-- Category sub-document (models/project.js `categorySchema`). -/
structure Category where
  name : String
  key : String
  workItems : List WorkItem
deriving Repr, DecidableEq

/-- Misc fee entry (models/project.js `miscFeeSchema`). -/
structure MiscFee where
  name : String
  amount : ℚ
deriving Repr, DecidableEq

/-- Payment entry (models/project.js `paymentSchema`); the date is not read by
the embedded computations. -/
structure Payment where
  amount : ℚ
  method : String
  note : String
  isPaid : Bool
  status : String
deriving Repr, DecidableEq

/-- Settings sub-document (models/project.js `settingsSchema`).  `payments` is
an `Option` because the controller may receive a non-array/absent value. -/
structure Settings where
  taxRate : ℚ
  transportationFee : ℚ
  wasteFactor : ℚ
  laborDiscount : ℚ
  markup : ℚ
  miscFees : List MiscFee
  payments : Option (List Payment)
deriving Repr, DecidableEq

/-- Totals block produced by `calculateCostsAndTotals`. -/
structure Totals where
  materialCost : ℚ
  laborCost : ℚ
  laborCostBeforeDiscount : ℚ
  laborDiscount : ℚ
  wasteCost : ℚ
  taxAmount : ℚ
  markupAmount : ℚ
  miscFeesTotal : ℚ
  transportationFee : ℚ
  subtotal : ℚ
  total : ℚ
deriving Repr, DecidableEq

/-- Payment details block assembled by `createOrUpdate`. -/
structure PaymentDetails where
  totalPaid : ℚ
  totalDue : ℚ
  grandTotal : ℚ
  depositAmount : ℚ
deriving Repr, DecidableEq

/-- Customer-info sub-document (models/project.js `customerInfoSchema`);
date fields are opaque integers, unread by the embedded passes. -/
structure CustomerInfo where
  firstName : String
  lastName : String
  street : String
  unit : String
  city : String
  state : String
  zipCode : String
  phone : String
  email : String
  projectName : String
  customerType : String
  paymentType : String
  startDate : Int
  finishDate : Option Int
  notes : String
  addressNumber : String
  direction : String
  streetName : String
  streetType : String
deriving Repr, DecidableEq

/-- Project document (models/project.js `projectSchema`), owner id elided. -/
structure Project where
  customerInfo : CustomerInfo
  categories : List Category
  settings : Settings
  totals : Totals
  paymentDetails : PaymentDetails
deriving Repr, DecidableEq

/-- Body of the per-surface `switch` in `getUnits`
(controllers/api/projects.js lines 12-28): the surface's `measurementType`
falls back to the item's, then dispatches to `sqft`/`linearFt`/`units`
(the latter through `parseInt`), any other type contributing 0. -/
def surfaceContribution (itemMeasurementType : String) (surface : Surface) : ℚ :=
  let type := jsOr surface.measurementType itemMeasurementType
  if type = "sqft" then surface.sqft
  else if type = "linear-foot" then surface.linearFt
  else if type = "by-unit" then ratTrunc surface.units
  else 0

/-- `getUnits` (controllers/api/projects.js lines 6-31): reduce over the
surfaces, accumulating each surface's contribution, starting from 0. -/
def getUnits (item : WorkItem) : ℚ :=
  item.surfaces.foldl (fun sum surface => sum + surfaceContribution item.measurementType surface) 0

/-- `parsePayments` (controllers/api/projects.js lines 33-52): a non-array or
absent input yields zeros; otherwise a single pass accumulates `totalPaid`
over `isPaid` entries and `depositAmount` over `isPaid` entries whose method
is `'Deposit'`.  Result is `(totalPaid, depositAmount)`. -/
def parsePayments (payments : Option (List Payment)) : ℚ × ℚ :=
  match payments with
  | none => (0, 0)
  | some ps =>
      ps.foldl
        (fun acc p =>
          if p.isPaid then
            (acc.1 + p.amount, if p.method = "Deposit" then acc.2 + p.amount else acc.2)
          else acc)
        (0, 0)

/-- `Math.max(0, grandTotal - totalPaid)` (controllers/api/projects.js line 247). -/
def computeTotalDue (grandTotal totalPaid : ℚ) : ℚ := max 0 (grandTotal - totalPaid)

/-- `calculateCostsAndTotals` (controllers/api/projects.js lines 54-102):
accumulate raw material and pre-discount labor cost over every work item of
every category, then apply discount, waste, subtotal, markup, tax, misc fees
and transportation fee in the source's order; every output field is rounded
via `toFixed(2)` exactly once, in the returned record. -/
def calculateCostsAndTotals (categories : List Category) (settings : Settings) : Totals :=
  let acc := categories.foldl
    (fun a category =>
      category.workItems.foldl
        (fun a2 item =>
          let units := getUnits item
          (a2.1 + item.materialCost * units, a2.2 + item.laborCost * units))
        a)
    ((0 : ℚ), (0 : ℚ))
  let materialCost := acc.1
  let laborCostBeforeDiscount := acc.2
  let laborDiscountRate := settings.laborDiscount
  let laborDiscountAmount := laborCostBeforeDiscount * laborDiscountRate
  let laborCost := laborCostBeforeDiscount - laborDiscountAmount
  let wasteFactorRate := settings.wasteFactor
  let wasteCost := materialCost * wasteFactorRate
  let materialCostWithWaste := materialCost + wasteCost
  let subtotal := materialCostWithWaste + laborCost
  let markupRate := settings.markup
  let markupAmount := subtotal * markupRate
  let taxRate := settings.taxRate
  let taxAmount := subtotal * taxRate
  let miscFeesTotal := settings.miscFees.foldl (fun sum f => sum + f.amount) 0
  let transportationFee := settings.transportationFee
  let grandTotal := subtotal + markupAmount + taxAmount + miscFeesTotal + transportationFee
  { materialCost := round2 materialCost
    laborCost := round2 laborCost
    laborCostBeforeDiscount := round2 laborCostBeforeDiscount
    laborDiscount := round2 laborDiscountAmount
    wasteCost := round2 wasteCost
    taxAmount := round2 taxAmount
    markupAmount := round2 markupAmount
    miscFeesTotal := round2 miscFeesTotal
    transportationFee := round2 transportationFee
    subtotal := round2 subtotal
    total := round2 grandTotal }

/-- Drop test of `ensureCategoryKeys` (controllers/api/projects.js lines
136-145): an item is kept iff its `type` is non-blank and it is not a
`'custom-work-type'` item with a blank `customWorkTypeName`.  The comparison
with the custom marker is on the raw, untrimmed `type`, as in the source. -/
def keepWorkItem (item : WorkItem) : Bool :=
  !(item.type = "" || jsTrim item.type = "") &&
  !(item.type = "custom-work-type" &&
    (item.customWorkTypeName = "" || jsTrim item.customWorkTypeName = ""))

/-- Rebuild of a surviving item (`fixedItem`, controllers/api/projects.js lines
148-160): defaults applied, `type` trimmed, `categoryKey` overwritten with the
parent category's key. -/
def fixWorkItem (categoryKey : String) (item : WorkItem) : WorkItem :=
  { name := jsOr item.name "Unnamed Work Item"
    customWorkTypeName := jsOr item.customWorkTypeName ""
    type := jsTrim item.type
    subtype := jsOr item.subtype ""
    description := jsOr item.description ""
    surfaces := item.surfaces
    materialCost := item.materialCost
    laborCost := item.laborCost
    notes := jsOr item.notes ""
    measurementType := jsOr item.measurementType "sqft"
    categoryKey := categoryKey }

/-- The `validWorkItems` accumulation loop of `ensureCategoryKeys`
(controllers/api/projects.js lines 127-164): skip items failing the drop test,
push the rebuilt item otherwise. -/
def validWorkItems (categoryKey : String) : List WorkItem → List WorkItem
  | [] => []
  | item :: rest =>
      if keepWorkItem item then fixWorkItem categoryKey item :: validWorkItems categoryKey rest
      else validWorkItems categoryKey rest

/-- Per-category result of `ensureCategoryKeys` (lines 168-172): name and key
kept, work items filtered and rebuilt. -/
def sanitizeCategory (category : Category) : Category :=
  { name := category.name
    key := category.key
    workItems := validWorkItems category.key category.workItems }

/-- Structural failure raised by `ensureCategoryKeys` for a category missing
`key` or `name`, carrying the offending index (line 124). -/
inductive SanitizeError where
  | missingKeyOrName (catIndex : Nat)
deriving Repr, DecidableEq

/-- Indexed traversal of `ensureCategoryKeys`'s `categories.map` (lines
115-180): the first category missing `key` or `name` throws; otherwise every
category is sanitized.  The trailing `.filter` of the source keeps every
category and is omitted as a no-op. -/
def ensureCategoryKeysAux (catIndex : Nat) : List Category → Except SanitizeError (List Category)
  | [] => Except.ok []
  | category :: rest =>
      if category.key = "" ∨ category.name = "" then
        Except.error (SanitizeError.missingKeyOrName catIndex)
      else
        match ensureCategoryKeysAux (catIndex + 1) rest with
        | Except.error e => Except.error e
        | Except.ok sanitizedRest => Except.ok (sanitizeCategory category :: sanitizedRest)

/-- `ensureCategoryKeys` (controllers/api/projects.js lines 109-181). -/
def ensureCategoryKeys (categories : List Category) : Except SanitizeError (List Category) :=
  ensureCategoryKeysAux 0 categories

/-- Request-level failures of the category pipeline in `createOrUpdate`. -/
inductive RequestError where
  | mustHaveCategory
  | noValidWorkItems
  | structural (e : SanitizeError)
deriving Repr, DecidableEq

/-- Total surviving work items, as counted in `createOrUpdate` line 220. -/
def totalWorkItemCount (categories : List Category) : Nat :=
  categories.foldl (fun sum cat => sum + cat.workItems.length) 0

/-- Category pipeline of `createOrUpdate` (controllers/api/projects.js lines
204-239): reject an empty categories array, run `ensureCategoryKeys`
(structural errors become 400 responses), reject when zero work items survive
across all categories. -/
def processRequestCategories (categories : List Category) : Except RequestError (List Category) :=
  if categories.length = 0 then Except.error RequestError.mustHaveCategory
  else
    match ensureCategoryKeys categories with
    | Except.error e => Except.error (RequestError.structural e)
    | Except.ok fixedCategories =>
        if totalWorkItemCount fixedCategories = 0 then Except.error RequestError.noValidWorkItems
        else Except.ok fixedCategories

/-- `VALID_WORK_TYPES` (models/project.js lines 8-23): the fixed taxonomy
table mapping a category key to its allowed work-item types. -/
def VALID_WORK_TYPES (categoryKey : String) : Option (List String) :=
  if categoryKey = "kitchen" then some ["kitchen-flooring", "kitchen-tiles", "kitchen-backsplash", "kitchen-ceiling", "kitchen-walls", "kitchen-countertop-surface", "kitchen-cabinet-doors", "kitchen-island-top", "kitchen-cabinets", "kitchen-countertops", "kitchen-trim", "kitchen-island-edge", "kitchen-crown-molding", "kitchen-toe-kicks", "kitchen-cabinet-lighting", "kitchen-under-cabinet-strips", "kitchen-sink", "kitchen-faucet", "kitchen-lighting", "kitchen-appliance", "kitchen-hood", "kitchen-garbage-disposal", "kitchen-cabinet-hardware", "kitchen-outlet", "kitchen-switch", "kitchen-pantry-organizer"]
  else if categoryKey = "bathroom" then some ["bathroom-flooring", "bathroom-tiles", "bathroom-shower-tiles", "bathroom-walls", "bathroom-ceiling", "bathroom-shower-floor", "bathroom-vanity-top", "bathroom-mirror-wall", "bathroom-vanity", "bathroom-trim", "bathroom-wainscoting", "bathroom-shower-trim", "bathroom-tub-surround", "bathroom-chair-rail", "bathroom-towel-bars", "bathroom-grab-bars", "bathroom-faucet", "bathroom-shower-faucet", "bathroom-fan", "bathroom-towel-warmer", "bathroom-toilet", "bathroom-mirror", "bathroom-lighting", "bathroom-bathtub", "bathroom-shower-ledge", "bathroom-medicine-cabinet", "bathroom-outlet", "bathroom-shower-door"]
  else if categoryKey = "living-room" then some ["living-room-flooring", "living-room-walls", "living-room-ceiling", "living-room-accent-wall", "living-room-fireplace-surround", "living-room-built-in-shelving", "living-room-window-treatments", "living-room-trim", "living-room-crown-molding", "living-room-wainscoting", "living-room-chair-rail", "living-room-baseboard", "living-room-picture-ledge", "living-room-mantle", "living-room-cable-management", "living-room-lighting", "living-room-fireplace", "living-room-ceiling-fan", "living-room-tv-mount", "living-room-outlet", "living-room-switch", "living-room-window", "living-room-door", "living-room-built-in-cabinet", "living-room-speaker"]
  else if categoryKey = "bedroom" then some ["bedroom-flooring", "bedroom-walls", "bedroom-ceiling", "bedroom-closet-interior", "bedroom-accent-wall", "bedroom-window-treatments", "bedroom-headboard-wall", "bedroom-trim", "bedroom-closet-shelves", "bedroom-crown-molding", "bedroom-baseboard", "bedroom-chair-rail", "bedroom-closet-rods", "bedroom-window-sills", "bedroom-built-in-bench", "bedroom-lighting", "bedroom-ceiling-fan", "bedroom-window", "bedroom-closet-organizer", "bedroom-door", "bedroom-outlet", "bedroom-switch", "bedroom-closet-door", "bedroom-built-in-drawer", "bedroom-mirror"]
  else if categoryKey = "exterior" then some ["exterior-deck", "exterior-siding", "exterior-painting", "exterior-roofing", "exterior-patio", "exterior-driveway", "exterior-walkway", "exterior-retaining-wall", "exterior-fencing", "exterior-trim", "exterior-gutters", "exterior-deck-railing", "exterior-soffit", "exterior-fascia", "exterior-foundation-trim", "exterior-landscape-edging", "exterior-door", "exterior-window", "exterior-lighting", "exterior-mailbox", "exterior-gate", "exterior-outlet", "exterior-shutter", "exterior-downspout", "exterior-vent", "exterior-house-number"]
  else if categoryKey = "garage" then some ["garage-flooring", "garage-walls", "garage-ceiling", "garage-door-opener", "garage-storage-shelves", "garage-workbench", "garage-cabinets", "garage-lighting", "garage-outlet", "garage-insulation", "garage-epoxy-coating", "garage-door", "garage-window", "garage-ventilation", "garage-wall-organizer", "garage-ceiling-storage", "garage-bike-rack", "garage-tool-storage"]
  else if categoryKey = "electricity" then some ["electricity-wiring", "electricity-panel-upgrade", "electricity-circuit-breaker", "electricity-outlet-installation", "electricity-lighting-fixture", "electricity-ceiling-fan-installation", "electricity-switch-installation", "electricity-surge-protector", "electricity-grounding-system", "electricity-smoke-detector-installation", "electricity-smart-home-integration", "electricity-exterior-lighting", "electricity-appliance-circuit"]
  else if categoryKey = "plumbing" then some ["plumbing-pipe-installation", "plumbing-faucet-installation", "plumbing-toilet-installation", "plumbing-shower-installation", "plumbing-sink-installation", "plumbing-water-heater", "plumbing-drain-cleaning", "plumbing-leak-repair", "plumbing-valve-replacement", "plumbing-sump-pump", "plumbing-water-line", "plumbing-sewer-line"]
  else if categoryKey = "hallway" then some ["hallway-flooring", "hallway-walls", "hallway-ceiling", "hallway-lighting", "hallway-trim", "hallway-baseboard", "hallway-crown-molding", "hallway-wainscoting", "hallway-door", "hallway-runner", "hallway-wall-art-frame", "hallway-console-table", "hallway-mirror"]
  else if categoryKey = "general" then some ["general-drywall", "general-painting", "general-flooring", "general-ceiling", "general-wall-repair", "general-insulation", "general-paneling", "general-wallpaper", "general-trim", "general-molding", "general-chair-rail", "general-baseboard", "general-door-frame", "general-window-frame", "general-pipe-covering", "general-conduit-covering", "general-lighting", "general-window", "general-door", "general-outlet", "general-switch", "general-smoke-detector", "general-thermostat", "general-ceiling-medallion", "general-vent-cover", "general-access-panel"]
  else if categoryKey = "laundry" then some ["laundry-flooring", "laundry-walls", "laundry-ceiling", "laundry-cabinets", "laundry-washer", "laundry-dryer", "laundry-sink", "laundry-shelving", "laundry-folding-table", "laundry-countertop", "laundry-lighting", "laundry-outlet", "laundry-dryer-vent", "laundry-trim", "laundry-baseboard", "laundry-crown-molding", "laundry-wainscoting", "laundry-door", "laundry-utility-sink-faucet", "laundry-storage-rack", "laundry-ironing-station", "laundry-hanging-rods", "laundry-ventilation-fan"]
  else if categoryKey = "dining-room" then some ["dining-room-flooring", "dining-room-walls", "dining-room-ceiling", "dining-room-chandelier", "dining-room-built-in-buffet", "dining-room-display-cabinet", "dining-room-window-treatments", "dining-room-trim", "dining-room-crown-molding", "dining-room-wainscoting", "dining-room-chair-rail", "dining-room-baseboard", "dining-room-lighting", "dining-room-outlet", "dining-room-switch", "dining-room-window", "dining-room-door", "dining-room-accent-wall", "dining-room-wall-art-frame", "dining-room-ceiling-medallion", "dining-room-serving-hutch"]
  else if categoryKey = "basement" then some ["basement-flooring", "basement-walls", "basement-ceiling", "basement-waterproofing", "basement-egress-window", "basement-sump-pump", "basement-drop-ceiling", "basement-insulation", "basement-lighting", "basement-trim", "basement-baseboard", "basement-staircase", "basement-handrail", "basement-storage-shelves", "basement-built-in-bar", "basement-home-theater", "basement-outlet", "basement-switch", "basement-ventilation", "basement-fireplace", "basement-accent-wall"]
  else if categoryKey = "walk-in-closet" then some ["walk-in-closet-flooring", "walk-in-closet-walls", "walk-in-closet-ceiling", "walk-in-closet-shelves", "walk-in-closet-rods", "walk-in-closet-drawers", "walk-in-closet-organizer", "walk-in-closet-lighting", "walk-in-closet-mirror", "walk-in-closet-door", "walk-in-closet-bench", "walk-in-closet-island", "walk-in-closet-shoe-rack", "walk-in-closet-trim", "walk-in-closet-baseboard", "walk-in-closet-crown-molding", "walk-in-closet-accent-wall", "walk-in-closet-carpet", "walk-in-closet-storage-bins", "walk-in-closet-valet-rod"]
  else none

/-- `validateWorkType` (models/project.js lines 32-64): falsy argument is
rejected; the custom-type marker is valid for every category; a category key
with the `custom_` prefix admits any type; otherwise the type must be listed
in the taxonomy table, a key absent from the table rejecting everything. -/
def validateWorkType (categoryKey workType : String) : Bool :=
  if categoryKey = "" ∨ workType = "" then false
  else if workType = "custom-work-type" then true
  else if jsStartsWith categoryKey "custom_" then true
  else
    match VALID_WORK_TYPES categoryKey with
    | none => false
    | some validTypes => validTypes.contains workType

/-- `normalizeToCanonicalMeasurementType` (models/project.js lines 67-74):
case-insensitive alias mapping to the canonical enum, defaulting to `'sqft'`. -/
def normalizeToCanonicalMeasurementType (type : String) : String :=
  if type = "" then "sqft"
  else
    let t := jsTrim (jsToLower type)
    if ["sqft", "square-foot", "square foot", "single-surface"].contains t then "sqft"
    else if ["linear-foot", "linear ft", "linear"].contains t then "linear-foot"
    else if ["by-unit", "by unit", "unit", "units"].contains t then "by-unit"
    else "sqft"

/-- Address derivation of the pre-validate hook (models/project.js lines
285-293): when `addressNumber` or `streetName` is truthy, `street` is rebuilt
by joining the truthy components with single spaces and trimming. -/
def enforceCustomerInfo (ci : CustomerInfo) : CustomerInfo :=
  if ci.addressNumber ≠ "" ∨ ci.streetName ≠ "" then
    { ci with street := jsTrim (String.intercalate " "
        (([ci.addressNumber, ci.direction, ci.streetName, ci.streetType]).filter (fun s => s ≠ ""))) }
  else ci

/-- Per-item body of the pre-validate hook (models/project.js lines 305-337):
stamp `categoryKey` from the parent category, normalize the item's
measurement type and every surface's measurement type. -/
def enforceWorkItem (categoryKey : String) (item : WorkItem) : WorkItem :=
  { item with
      categoryKey := categoryKey
      measurementType := normalizeToCanonicalMeasurementType item.measurementType
      surfaces := item.surfaces.map (fun surface =>
        { surface with measurementType := normalizeToCanonicalMeasurementType surface.measurementType }) }

/-- Per-category body of the pre-validate hook (models/project.js lines 297-338). -/
def enforceCategory (category : Category) : Category :=
  { category with workItems := category.workItems.map (enforceWorkItem category.key) }

/-- The Invariant Enforcer: the whole pre-validate hook (models/project.js
lines 280-347) as a pure document transformation. -/
def enforceProject (p : Project) : Project :=
  { p with
      customerInfo := enforceCustomerInfo p.customerInfo
      categories := p.categories.map enforceCategory }

/-- Per-item repair of `validateAndRepairProjects` (models/project.js lines
383-391): a `'custom-work-type'` item with a blank `customWorkTypeName` gets
the fixed placeholder name. -/
def repairWorkItem (item : WorkItem) : WorkItem :=
  if item.type = "custom-work-type" ∧
     (item.customWorkTypeName = "" ∨ jsTrim item.customWorkTypeName = "") then
    { item with customWorkTypeName := "Unnamed Custom Work" }
  else item

/-- Repair pass over one category. -/
def repairCategory (category : Category) : Category :=
  { category with workItems := category.workItems.map repairWorkItem }

/-- The Corruption Repair Service's per-document transformation
(models/project.js lines 374-407; the same loop is the read-path repair in
the controller's `show`).  Persistence is outside the embedded core. -/
def repairProject (p : Project) : Project :=
  { p with categories := p.categories.map repairCategory }

/-- Claim-side definition: `materialCostRaw`, the sum over all work items of
the per-unit material rate times the Unit Aggregator's count (spec section 4.2
step 1). -/
def materialCostRaw (categories : List Category) : ℚ :=
  (categories.map (fun category =>
    (category.workItems.map (fun item => item.materialCost * getUnits item)).sum)).sum

/-- Claim-side definition: `laborCostRaw` (spec section 4.2 step 2). -/
def laborCostRaw (categories : List Category) : ℚ :=
  (categories.map (fun category =>
    (category.workItems.map (fun item => item.laborCost * getUnits item)).sum)).sum

/-- Claim-side definition of the Unit Aggregator's per-surface rule, written
from the spec's words (section 4.1): pick the surface's own measurement type
if present else the item's; map area to `sqft`, linear to `linearFt`, by-unit
to `units` truncated to an integer; an unknown type contributes 0. -/
def unitContributionSpec (itemMeasurementType : String) (surface : Surface) : ℚ :=
  let effective :=
    if surface.measurementType ≠ "" then surface.measurementType else itemMeasurementType
  if effective = "sqft" then surface.sqft
  else if effective = "linear-foot" then surface.linearFt
  else if effective = "by-unit" then ratTrunc surface.units
  else 0

/-- Whether the request pipeline produced a failure response. -/
def isFailure : Except RequestError (List Category) → Bool
  | Except.error _ => true
  | Except.ok _ => false

/-- Index of the first category missing `key` or `name`; the index named by
the structural-validation error `ensureCategoryKeys` raises. -/
def firstBadIndex : List Category → Nat
  | [] => 0
  | c :: cs => if c.key = "" ∨ c.name = "" then 0 else firstBadIndex cs + 1

/-- Placeholder category used when reading past the end of a list. -/
def emptyCategory : Category := { name := "", key := "", workItems := [] }

/-- Concrete surface: 100 square feet (spec section 8, Example 1). -/
def exampleSurface : Surface :=
  { name := "Floor", measurementType := "sqft", width := 0, height := 0, sqft := 100
    manualSqft := false, linearFt := 0, units := 0, length := 0 }

/-- Concrete kitchen-flooring work item, rates 2 and 3 per unit. -/
def exampleKitchenItem : WorkItem :=
  { name := "Floor work", customWorkTypeName := "", type := "kitchen-flooring"
    subtype := "", description := "", surfaces := [exampleSurface]
    materialCost := 2, laborCost := 3, notes := "", measurementType := "sqft"
    categoryKey := "" }

/-- Concrete kitchen category holding the flooring item. -/
def exampleKitchenCategory : Category :=
  { name := "Kitchen", key := "kitchen", workItems := [exampleKitchenItem] }

/-- Concrete settings: all rates zero except an 8 percent tax rate. -/
def exampleSettings : Settings :=
  { taxRate := 0.08, transportationFee := 0, wasteFactor := 0, laborDiscount := 0
    markup := 0, miscFees := [], payments := none }

/-- Raw work item whose `type` differs from the custom marker only by a
leading space and whose `customWorkTypeName` is blank. -/
def c3WhitespaceItem : WorkItem :=
  { name := "Mystery", customWorkTypeName := "", type := " custom-work-type"
    subtype := "", description := "", surfaces := [], materialCost := 0
    laborCost := 0, notes := "", measurementType := "", categoryKey := "" }

/-- Category feeding `c3WhitespaceItem` to the Sanitizer. -/
def c3RawCategory : Category :=
  { name := "Kitchen", key := "kitchen", workItems := [c3WhitespaceItem] }

/-- The item as it appears in the Sanitizer's output for `c3RawCategory`:
its trimmed `type` equals the custom marker, its name is blank. -/
def c3OutputItem : WorkItem :=
  { name := "Mystery", customWorkTypeName := "", type := "custom-work-type"
    subtype := "", description := "", surfaces := [], materialCost := 0
    laborCost := 0, notes := "", measurementType := "sqft", categoryKey := "kitchen" }

/-- Category missing its `key`: a structural-validation failure. -/
def c3BadCategory : Category :=
  { name := "Kitchen", key := "", workItems := [exampleKitchenItem] }

/-- Persisted work item with a standard type and a non-blank
`customWorkTypeName`: legal under the schema, untouched by the repair. -/
def c7StandardNamedItem : WorkItem :=
  { name := "Countertop", customWorkTypeName := "Granite special"
    type := "kitchen-countertops", subtype := "", description := "", surfaces := []
    materialCost := 0, laborCost := 0, notes := "", measurementType := "sqft"
    categoryKey := "kitchen" }

/-- Corrupted custom-type work item with a blank name. -/
def c7BlankCustomItem : WorkItem :=
  { name := "Custom", customWorkTypeName := " ", type := "custom-work-type"
    subtype := "", description := "", surfaces := [], materialCost := 0
    laborCost := 0, notes := "", measurementType := "sqft", categoryKey := "kitchen" }

/-- Category holding the corrupted custom-type item. -/
def c7Category : Category :=
  { name := "Kitchen", key := "kitchen", workItems := [c7BlankCustomItem] }

/-- Minimal customer-info block for concrete project documents. -/
def exampleCustomerInfo : CustomerInfo :=
  { firstName := "Ada", lastName := "Smith", street := "1 Main St", unit := ""
    city := "Chicago", state := "IL", zipCode := "60601", phone := "3125550100"
    email := "ada@example.com", projectName := "Remodel", customerType := "Residential"
    paymentType := "Cash", startDate := 0, finishDate := none, notes := ""
    addressNumber := "", direction := "", streetName := "", streetType := "" }

/-- All-zero totals block. -/
def zeroTotals : Totals :=
  { materialCost := 0, laborCost := 0, laborCostBeforeDiscount := 0, laborDiscount := 0
    wasteCost := 0, taxAmount := 0, markupAmount := 0, miscFeesTotal := 0
    transportationFee := 0, subtotal := 0, total := 0 }

/-- All-zero payment-details block. -/
def zeroPaymentDetails : PaymentDetails :=
  { totalPaid := 0, totalDue := 0, grandTotal := 0, depositAmount := 0 }

/-- Concrete persisted project holding the corrupted custom-type item. -/
def c7Project : Project :=
  { customerInfo := exampleCustomerInfo, categories := [c7Category]
    settings := exampleSettings, totals := zeroTotals
    paymentDetails := zeroPaymentDetails }

/-- Payment list from spec section 8, Example 4: 100 cash paid, 50 deposit paid. -/
def examplePayments : List Payment :=
  [ { amount := 100, method := "Cash", note := "", isPaid := true, status := "Paid" },
    { amount := 50, method := "Deposit", note := "", isPaid := true, status := "Paid" } ]

/-- Work item for the noninterference check. -/
def c10ItemA : WorkItem :=
  { name := "Walls", customWorkTypeName := "", type := "kitchen-walls"
    subtype := "", description := ""
    surfaces := [{ name := "North wall", measurementType := "sqft", width := 10, height := 8
                   sqft := 80, manualSqft := true, linearFt := 0, units := 0, length := 0 }]
    materialCost := 1, laborCost := 1, notes := "", measurementType := "sqft"
    categoryKey := "kitchen" }

/-- Same work item with different surface `width`, `height`, `length`, `name`
and `manualSqft`. -/
def c10ItemB : WorkItem :=
  { name := "Walls", customWorkTypeName := "", type := "kitchen-walls"
    subtype := "", description := ""
    surfaces := [{ name := "South wall", measurementType := "sqft", width := 55, height := 3
                   sqft := 80, manualSqft := false, linearFt := 0, units := 0, length := 44 }]
    materialCost := 1, laborCost := 1, notes := "", measurementType := "sqft"
    categoryKey := "kitchen" }

theorem foldl_add_ratsum {α : Type} (f : α → ℚ) (l : List α) :
    ∀ a : ℚ, l.foldl (fun s x => s + f x) a = a + (l.map f).sum := by
  induction l with
  | nil => intro a; simp
  | cons x xs ih => intro a; simp [List.foldl_cons, ih]; ring

theorem getUnits_eq_sum (item : WorkItem) :
    getUnits item = (item.surfaces.map (surfaceContribution item.measurementType)).sum := by
  unfold getUnits
  rw [foldl_add_ratsum]
  simp

theorem surfaceContribution_eq_spec (m : String) (s : Surface) :
    surfaceContribution m s = unitContributionSpec m s := by
  unfold surfaceContribution unitContributionSpec jsOr
  by_cases h : s.measurementType = "" <;> simp [h]

theorem surfaceContribution_congr (m : String) (s1 s2 : Surface)
    (h : s1.measurementType = s2.measurementType ∧ s1.sqft = s2.sqft ∧
         s1.linearFt = s2.linearFt ∧ s1.units = s2.units) :
    surfaceContribution m s1 = surfaceContribution m s2 := by
  obtain ⟨h1, h2, h3, h4⟩ := h
  unfold surfaceContribution
  rw [h1, h2, h3, h4]

theorem sum_surfaceContribution_congr (m : String) (l1 l2 : List Surface)
    (h : List.Forall₂ (fun s1 s2 : Surface =>
           s1.measurementType = s2.measurementType ∧ s1.sqft = s2.sqft ∧
           s1.linearFt = s2.linearFt ∧ s1.units = s2.units) l1 l2) :
    (l1.map (surfaceContribution m)).sum = (l2.map (surfaceContribution m)).sum := by
  induction h with
  | nil => rfl
  | cons hrel hrest ih =>
      simp only [List.map_cons, List.sum_cons, ih]
      rw [surfaceContribution_congr m _ _ hrel]

/-- C2: for every work item, `getUnits` returns the sum over its surfaces of
the spec's per-surface rule (surface measurement type falling back to the
item's; area to `sqft`, linear to `linearFt`, by-unit to `units` truncated to
an integer; unknown types contributing 0), and an item with no surfaces
yields 0. -/
theorem getUnits_spec (item : WorkItem) :
    getUnits item = (item.surfaces.map (unitContributionSpec item.measurementType)).sum ∧
    getUnits { item with surfaces := [] } = 0 := by
  constructor
  · rw [getUnits_eq_sum]
    exact congrArg List.sum (List.map_congr_left (fun s _ => surfaceContribution_eq_spec _ s))
  · rfl

/-- C10: the Unit Aggregator's result depends only on each surface's
`measurementType`, `sqft`, `linearFt` and `units` fields and on the item's
measurement-type fallback; two items differing only in surface `width`,
`height`, `length`, `name` or `manualSqft` (or any other item field) get the
same unit count. -/
theorem getUnits_noninterference (it1 it2 : WorkItem)
    (hm : it1.measurementType = it2.measurementType)
    (hs : List.Forall₂ (fun s1 s2 : Surface =>
            s1.measurementType = s2.measurementType ∧ s1.sqft = s2.sqft ∧
            s1.linearFt = s2.linearFt ∧ s1.units = s2.units) it1.surfaces it2.surfaces) :
    getUnits it1 = getUnits it2 := by
  rw [getUnits_eq_sum, getUnits_eq_sum, hm]
  exact sum_surfaceContribution_congr _ _ _ hs

/-- Witness for C10 at two concrete items differing in surface width, height,
length, name and manualSqft. -/
theorem getUnits_noninterference_witness : getUnits c10ItemA = getUnits c10ItemB :=
  getUnits_noninterference c10ItemA c10ItemB rfl
    (List.Forall₂.cons ⟨rfl, rfl, rfl, rfl⟩ List.Forall₂.nil)

theorem parsePayments_foldl (ps : List Payment) :
    ∀ a : ℚ × ℚ,
      ps.foldl
        (fun acc p =>
          if p.isPaid then
            (acc.1 + p.amount, if p.method = "Deposit" then acc.2 + p.amount else acc.2)
          else acc)
        a
      = (a.1 + ((ps.filter (fun p => p.isPaid)).map Payment.amount).sum,
         a.2 + ((ps.filter (fun p => p.isPaid && (p.method == "Deposit"))).map Payment.amount).sum) := by
  induction ps with
  | nil => intro a; simp
  | cons p rest ih =>
      intro a
      cases hp : p.isPaid
      · simp [List.foldl_cons, hp, ih, List.filter_cons]
      · by_cases hm : p.method = "Deposit" <;>
          simp [List.foldl_cons, hp, hm, ih, List.filter_cons] <;>
          first
          | trivial
          | (constructor <;> exact add_assoc _ _ _)
          | exact add_assoc _ _ _

/-- C8: `parsePayments` returns `totalPaid` as the sum of the amounts of the
`isPaid` entries and `depositAmount` as the sum of the amounts of the `isPaid`
entries with method `'Deposit'`; an absent/non-array input yields zeros; and
`totalDue = max(0, grandTotal - totalPaid)`, hence never negative. -/
theorem parsePayments_spec :
    (∀ ps : List Payment,
       parsePayments (some ps) =
         (((ps.filter (fun p => p.isPaid)).map Payment.amount).sum,
          ((ps.filter (fun p => p.isPaid && (p.method == "Deposit"))).map Payment.amount).sum)) ∧
    parsePayments none = (0, 0) ∧
    (∀ grandTotal totalPaid : ℚ,
       computeTotalDue grandTotal totalPaid = max 0 (grandTotal - totalPaid) ∧
       0 ≤ computeTotalDue grandTotal totalPaid) := by
  refine ⟨?_, rfl, ?_⟩
  · intro ps
    simpa [parsePayments] using parsePayments_foldl ps (0, 0)
  · intro grandTotal totalPaid
    exact ⟨rfl, le_max_left 0 _⟩

theorem parsePayments_foldl_le (ps : List Payment)
    (h : ∀ p ∈ ps, p.isPaid = true → 0 ≤ p.amount) :
    ∀ a : ℚ × ℚ, a.2 ≤ a.1 →
      (ps.foldl
        (fun acc p =>
          if p.isPaid then
            (acc.1 + p.amount, if p.method = "Deposit" then acc.2 + p.amount else acc.2)
          else acc)
        a).2 ≤
      (ps.foldl
        (fun acc p =>
          if p.isPaid then
            (acc.1 + p.amount, if p.method = "Deposit" then acc.2 + p.amount else acc.2)
          else acc)
        a).1 := by
  induction ps with
  | nil => intro a ha; simpa using ha
  | cons p rest ih =>
      intro a ha
      have hrest : ∀ q ∈ rest, q.isPaid = true → 0 ≤ q.amount :=
        fun q hq => h q (List.mem_cons_of_mem p hq)
      cases hp : p.isPaid
      · simpa [List.foldl_cons, hp] using ih hrest a ha
      · have hamt : 0 ≤ p.amount := h p (List.mem_cons_self p rest) hp
        by_cases hm : p.method = "Deposit"
        · refine ih hrest _ ?_
          simp [hp, hm]
          linarith
        · refine ih hrest _ ?_
          simp [hp, hm]
          linarith

/-- C9: when every paid entry has a non-negative amount, the deposit total is
at most the paid total. -/
theorem deposit_le_totalPaid (ps : List Payment)
    (h : ∀ p ∈ ps, p.isPaid = true → 0 ≤ p.amount) :
    (parsePayments (some ps)).2 ≤ (parsePayments (some ps)).1 :=
  parsePayments_foldl_le ps h (0, 0) le_rfl

/-- Witness for C9 at the concrete two-payment list of spec Example 4. -/
theorem deposit_le_totalPaid_witness :
    (parsePayments (some examplePayments)).2 ≤ (parsePayments (some examplePayments)).1 :=
  deposit_le_totalPaid examplePayments (by decide)

theorem workItems_cost_foldl (items : List WorkItem) :
    ∀ a : ℚ × ℚ,
      items.foldl
        (fun a2 item =>
          (a2.1 + item.materialCost * getUnits item, a2.2 + item.laborCost * getUnits item)) a
      = (a.1 + (items.map (fun item => item.materialCost * getUnits item)).sum,
         a.2 + (items.map (fun item => item.laborCost * getUnits item)).sum) := by
  induction items with
  | nil => intro a; simp
  | cons x xs ih =>
      intro a
      simp [List.foldl_cons, ih]
      constructor <;> exact add_assoc _ _ _

theorem categories_cost_foldl (cats : List Category) :
    ∀ a : ℚ × ℚ,
      cats.foldl
        (fun a category =>
          category.workItems.foldl
            (fun a2 item =>
              (a2.1 + item.materialCost * getUnits item, a2.2 + item.laborCost * getUnits item))
            a) a
      = (a.1 + materialCostRaw cats, a.2 + laborCostRaw cats) := by
  induction cats with
  | nil => intro a; simp [materialCostRaw, laborCostRaw]
  | cons c cs ih =>
      intro a
      rw [List.foldl_cons, ih, workItems_cost_foldl]
      simp only [materialCostRaw, laborCostRaw, List.map_cons, List.sum_cons, Prod.mk.injEq]
      constructor <;> exact add_assoc _ _ _

theorem cost_acc_fst (cats : List Category) :
    (cats.foldl
      (fun a category =>
        category.workItems.foldl
          (fun a2 item =>
            (a2.1 + item.materialCost * getUnits item, a2.2 + item.laborCost * getUnits item))
          a) ((0 : ℚ), (0 : ℚ))).1 = materialCostRaw cats := by
  rw [categories_cost_foldl]
  simp

theorem cost_acc_snd (cats : List Category) :
    (cats.foldl
      (fun a category =>
        category.workItems.foldl
          (fun a2 item =>
            (a2.1 + item.materialCost * getUnits item, a2.2 + item.laborCost * getUnits item))
          a) ((0 : ℚ), (0 : ℚ))).2 = laborCostRaw cats := by
  rw [categories_cost_foldl]
  simp

theorem misc_foldl_zero (l : List MiscFee) :
    l.foldl (fun sum f => sum + f.amount) 0 = (l.map MiscFee.amount).sum := by
  rw [foldl_add_ratsum]
  simp

/-- C1: for valid-range settings, the calculator's outputs are the 2-decimal
roundings, applied exactly once at the output boundary, of the exact
quantities: `subtotal = materialCostRaw*(1+w) + laborCostRaw*(1-d)` and
`total = subtotal*(1+m+t) + miscFeesTotal + transportationFee`, with every
intermediate field likewise rounded only from its full-precision value. -/
theorem costTotals_formula (cats : List Category) (settings : Settings)
    (hd0 : 0 ≤ settings.laborDiscount) (hd1 : settings.laborDiscount ≤ 1)
    (hw0 : 0 ≤ settings.wasteFactor) (hw1 : settings.wasteFactor ≤ 1)
    (ht0 : 0 ≤ settings.taxRate) (ht1 : settings.taxRate ≤ 1)
    (hm0 : 0 ≤ settings.markup) (hm1 : settings.markup ≤ 10) :
    calculateCostsAndTotals cats settings =
      { materialCost := round2 (materialCostRaw cats)
        laborCost := round2 (laborCostRaw cats * (1 - settings.laborDiscount))
        laborCostBeforeDiscount := round2 (laborCostRaw cats)
        laborDiscount := round2 (laborCostRaw cats * settings.laborDiscount)
        wasteCost := round2 (materialCostRaw cats * settings.wasteFactor)
        taxAmount := round2 ((materialCostRaw cats * (1 + settings.wasteFactor) +
          laborCostRaw cats * (1 - settings.laborDiscount)) * settings.taxRate)
        markupAmount := round2 ((materialCostRaw cats * (1 + settings.wasteFactor) +
          laborCostRaw cats * (1 - settings.laborDiscount)) * settings.markup)
        miscFeesTotal := round2 ((settings.miscFees.map MiscFee.amount).sum)
        transportationFee := round2 settings.transportationFee
        subtotal := round2 (materialCostRaw cats * (1 + settings.wasteFactor) +
          laborCostRaw cats * (1 - settings.laborDiscount))
        total := round2 ((materialCostRaw cats * (1 + settings.wasteFactor) +
          laborCostRaw cats * (1 - settings.laborDiscount)) *
            (1 + settings.markup + settings.taxRate) +
          (settings.miscFees.map MiscFee.amount).sum + settings.transportationFee) } := by
  simp only [calculateCostsAndTotals]
  rw [cost_acc_fst, cost_acc_snd, misc_foldl_zero]
  simp only [Totals.mk.injEq]
  refine ⟨?_, ?_, ?_, ?_, ?_, ?_, ?_, ?_, ?_, ?_, ?_⟩ <;> (congr 1; first | rfl | ring_nf)

/-- Witness for C1 at the concrete project of spec Example 1. -/
theorem costTotals_formula_witness :
    (0 : ℚ) ≤ exampleSettings.laborDiscount ∧ exampleSettings.laborDiscount ≤ 1 ∧
    (0 : ℚ) ≤ exampleSettings.wasteFactor ∧ exampleSettings.wasteFactor ≤ 1 ∧
    (0 : ℚ) ≤ exampleSettings.taxRate ∧ exampleSettings.taxRate ≤ 1 ∧
    (0 : ℚ) ≤ exampleSettings.markup ∧ exampleSettings.markup ≤ 10 ∧
    calculateCostsAndTotals [exampleKitchenCategory] exampleSettings =
      { materialCost := round2 (materialCostRaw [exampleKitchenCategory])
        laborCost := round2 (laborCostRaw [exampleKitchenCategory] * (1 - exampleSettings.laborDiscount))
        laborCostBeforeDiscount := round2 (laborCostRaw [exampleKitchenCategory])
        laborDiscount := round2 (laborCostRaw [exampleKitchenCategory] * exampleSettings.laborDiscount)
        wasteCost := round2 (materialCostRaw [exampleKitchenCategory] * exampleSettings.wasteFactor)
        taxAmount := round2 ((materialCostRaw [exampleKitchenCategory] * (1 + exampleSettings.wasteFactor) +
          laborCostRaw [exampleKitchenCategory] * (1 - exampleSettings.laborDiscount)) * exampleSettings.taxRate)
        markupAmount := round2 ((materialCostRaw [exampleKitchenCategory] * (1 + exampleSettings.wasteFactor) +
          laborCostRaw [exampleKitchenCategory] * (1 - exampleSettings.laborDiscount)) * exampleSettings.markup)
        miscFeesTotal := round2 ((exampleSettings.miscFees.map MiscFee.amount).sum)
        transportationFee := round2 exampleSettings.transportationFee
        subtotal := round2 (materialCostRaw [exampleKitchenCategory] * (1 + exampleSettings.wasteFactor) +
          laborCostRaw [exampleKitchenCategory] * (1 - exampleSettings.laborDiscount))
        total := round2 ((materialCostRaw [exampleKitchenCategory] * (1 + exampleSettings.wasteFactor) +
          laborCostRaw [exampleKitchenCategory] * (1 - exampleSettings.laborDiscount)) *
            (1 + exampleSettings.markup + exampleSettings.taxRate) +
          (exampleSettings.miscFees.map MiscFee.amount).sum + exampleSettings.transportationFee) } :=
  ⟨by norm_num [exampleSettings], by norm_num [exampleSettings],
   by norm_num [exampleSettings], by norm_num [exampleSettings],
   by norm_num [exampleSettings], by norm_num [exampleSettings],
   by norm_num [exampleSettings], by norm_num [exampleSettings],
   costTotals_formula [exampleKitchenCategory] exampleSettings
     (by norm_num [exampleSettings]) (by norm_num [exampleSettings])
     (by norm_num [exampleSettings]) (by norm_num [exampleSettings])
     (by norm_num [exampleSettings]) (by norm_num [exampleSettings])
     (by norm_num [exampleSettings]) (by norm_num [exampleSettings])⟩

/-- C4: for a work item of the data model (non-empty type, owning category
key non-empty), `validateWorkType` accepts exactly when the type is the
custom-type marker, or the category key carries the `custom_` prefix, or the
type belongs to the taxonomy table's list for that key; a key absent from the
table (with neither escape hatch applying) is invalid. -/
theorem validateWorkType_accepts_iff (categoryKey workType : String)
    (hk : categoryKey ≠ "") (ht : workType ≠ "") :
    validateWorkType categoryKey workType = true ↔
      (workType = "custom-work-type" ∨
       jsStartsWith categoryKey "custom_" = true ∨
       ∃ validTypes, VALID_WORK_TYPES categoryKey = some validTypes ∧ workType ∈ validTypes) := by
  unfold validateWorkType
  rw [if_neg (by simp [hk, ht])]
  by_cases h1 : workType = "custom-work-type"
  · simp [h1]
  · rw [if_neg h1]
    by_cases h2 : jsStartsWith categoryKey "custom_" = true
    · simp [h2]
    · rw [if_neg h2]
      cases hV : VALID_WORK_TYPES categoryKey with
      | none => simp [h1, h2, hV]
      | some validTypes => simp [h1, h2, hV]

/-- Witness for C4: the custom-type marker is accepted for the kitchen
category. -/
theorem validateWorkType_accepts_iff_witness :
    validateWorkType "kitchen" "custom-work-type" = true :=
  (validateWorkType_accepts_iff "kitchen" "custom-work-type"
    (by decide) (by decide)).mpr (Or.inl rfl)

theorem mem_validWorkItems (key : String) (items : List WorkItem) (it : WorkItem) :
    it ∈ validWorkItems key items ↔
      ∃ r ∈ items, keepWorkItem r = true ∧ it = fixWorkItem key r := by
  induction items with
  | nil => simp [validWorkItems]
  | cons x xs ih =>
      by_cases hx : keepWorkItem x = true
      · simp only [validWorkItems, hx, if_true, List.mem_cons, ih]
        constructor
        · rintro (rfl | ⟨r, hr, hk, rfl⟩)
          · exact ⟨x, Or.inl rfl, hx, rfl⟩
          · exact ⟨r, Or.inr hr, hk, rfl⟩
        · rintro ⟨r, (rfl | hr), hk, rfl⟩
          · exact Or.inl rfl
          · exact Or.inr ⟨r, hr, hk, rfl⟩
      · have hx2 : keepWorkItem x = false := by simpa using hx
        simp only [validWorkItems, hx2, Bool.false_eq_true, if_false, ih, List.mem_cons]
        constructor
        · rintro ⟨r, hr, hk, rfl⟩
          exact ⟨r, Or.inr hr, hk, rfl⟩
        · rintro ⟨r, (rfl | hr), hk, rfl⟩
          · exact absurd hk (by simp [hx2])
          · exact ⟨r, hr, hk, rfl⟩

theorem ensureAux_ok (cats : List Category) :
    ∀ i : Nat, (∀ c ∈ cats, ¬(c.key = "" ∨ c.name = "")) →
      ensureCategoryKeysAux i cats = Except.ok (cats.map sanitizeCategory) := by
  induction cats with
  | nil => intro i _; rfl
  | cons c cs ih =>
      intro i h
      have hc := h c (List.mem_cons_self c cs)
      simp only [ensureCategoryKeysAux]
      rw [if_neg hc, ih (i + 1) (fun x hx => h x (List.mem_cons_of_mem c hx))]
      rfl

theorem ensureAux_ok_inv (cats : List Category) :
    ∀ i out, ensureCategoryKeysAux i cats = Except.ok out → out = cats.map sanitizeCategory := by
  induction cats with
  | nil =>
      intro i out h
      simp only [ensureCategoryKeysAux] at h
      cases h
      rfl
  | cons c cs ih =>
      intro i out h
      simp only [ensureCategoryKeysAux] at h
      by_cases hc : c.key = "" ∨ c.name = ""
      · rw [if_pos hc] at h
        cases h
      · rw [if_neg hc] at h
        cases heq : ensureCategoryKeysAux (i + 1) cs with
        | error e => rw [heq] at h; cases h
        | ok rest =>
            rw [heq] at h
            cases h
            simp only [List.map_cons]
            rw [ih (i + 1) rest heq]

theorem ensureAux_err (cats : List Category) :
    ∀ i : Nat, (∃ c ∈ cats, c.key = "" ∨ c.name = "") →
      firstBadIndex cats < cats.length ∧
      ensureCategoryKeysAux i cats =
        Except.error (SanitizeError.missingKeyOrName (i + firstBadIndex cats)) ∧
      ((cats.getD (firstBadIndex cats) emptyCategory).key = "" ∨
       (cats.getD (firstBadIndex cats) emptyCategory).name = "") := by
  induction cats with
  | nil => intro i h; simp at h
  | cons c cs ih =>
      intro i h
      by_cases hc : c.key = "" ∨ c.name = ""
      · refine ⟨by simp [firstBadIndex, hc], ?_, ?_⟩
        · simp [ensureCategoryKeysAux, hc, firstBadIndex]
        · simp [firstBadIndex, hc, List.getD]
      · have hcs : ∃ x ∈ cs, x.key = "" ∨ x.name = "" := by
          obtain ⟨x, hx, hxor⟩ := h
          rcases List.mem_cons.mp hx with rfl | hx2
          · exact absurd hxor hc
          · exact ⟨x, hx2, hxor⟩
        obtain ⟨h1, h2, h3⟩ := ih (i + 1) hcs
        have hfb : firstBadIndex (c :: cs) = firstBadIndex cs + 1 := by
          simp [firstBadIndex, hc]
        refine ⟨?_, ?_, ?_⟩
        · simp only [hfb, List.length_cons]
          omega
        · have harith : i + 1 + firstBadIndex cs = i + firstBadIndex (c :: cs) := by
            rw [hfb]; omega
          simp only [ensureCategoryKeysAux]
          rw [if_neg hc, h2, ← harith]
        · simpa [hfb, List.getD_cons_succ] using h3

/-- C3 counterexample: a raw item whose `type` is the custom marker with a
leading space and whose `customWorkTypeName` is blank passes the Sanitizer,
and the sanitized output contains a work item whose (trimmed) `type` equals
the custom-type marker while its `customWorkTypeName` is blank — contradicting
the claim that such an item never appears in the sanitized output. -/
theorem sanitizer_whitespace_marker_escapes :
    ensureCategoryKeys [c3RawCategory] =
      Except.ok [{ name := "Kitchen", key := "kitchen", workItems := [c3OutputItem] }] ∧
    c3OutputItem.type = "custom-work-type" ∧ c3OutputItem.customWorkTypeName = "" := by
  refine ⟨by rfl, rfl, rfl⟩

/-- C3 (amended): blank-typed items never appear in the sanitized output, and
every output item arises from a raw item that passed the keep test — in
particular a raw item whose untrimmed `type` equals the custom marker with a
blank `customWorkTypeName` is dropped (an item may still surface with a
type equal to the marker after trimming, per the counterexample); a category
missing `key` or `name` fails the whole call with a structural error naming
the first offending index. -/
theorem sanitizer_drop_and_structural_law (cats : List Category) :
    (∀ out, ensureCategoryKeys cats = Except.ok out →
       ∀ cat ∈ out, ∀ it ∈ cat.workItems,
         it.type ≠ "" ∧
         ∃ c ∈ cats, cat = sanitizeCategory c ∧
           ∃ r ∈ c.workItems, keepWorkItem r = true ∧ it = fixWorkItem c.key r) ∧
    ((∃ c ∈ cats, c.key = "" ∨ c.name = "") →
       firstBadIndex cats < cats.length ∧
       ensureCategoryKeys cats =
         Except.error (SanitizeError.missingKeyOrName (firstBadIndex cats)) ∧
       ((cats.getD (firstBadIndex cats) emptyCategory).key = "" ∨
        (cats.getD (firstBadIndex cats) emptyCategory).name = "")) := by
  constructor
  · intro out hok cat hcat it hit
    have hout : out = cats.map sanitizeCategory := ensureAux_ok_inv cats 0 out hok
    subst hout
    obtain ⟨c, hc, rfl⟩ := List.mem_map.mp hcat
    rw [show (sanitizeCategory c).workItems = validWorkItems c.key c.workItems from rfl] at hit
    obtain ⟨r, hr, hkeep, rfl⟩ := (mem_validWorkItems c.key c.workItems it).mp hit
    refine ⟨?_, c, hc, rfl, r, hr, hkeep, rfl⟩
    have : jsTrim r.type ≠ "" := by
      simp only [keepWorkItem, Bool.and_eq_true, Bool.not_eq_true', Bool.or_eq_false_iff,
        decide_eq_false_iff_not] at hkeep
      exact hkeep.1.2
    simpa [fixWorkItem] using this
  · intro h
    have := ensureAux_err cats 0 h
    simpa [ensureCategoryKeys] using this

/-- Witness for C3 at a concrete category list whose single category is
missing its key. -/
theorem sanitizer_drop_and_structural_law_witness :
    firstBadIndex [c3BadCategory] < [c3BadCategory].length ∧
    ensureCategoryKeys [c3BadCategory] =
      Except.error (SanitizeError.missingKeyOrName (firstBadIndex [c3BadCategory])) ∧
    (([c3BadCategory].getD (firstBadIndex [c3BadCategory]) emptyCategory).key = "" ∨
     ([c3BadCategory].getD (firstBadIndex [c3BadCategory]) emptyCategory).name = "") :=
  (sanitizer_drop_and_structural_law [c3BadCategory]).2
    ⟨c3BadCategory, List.mem_singleton.mpr rfl, Or.inl rfl⟩

/-- C5: under structurally valid categories, sanitization never drops a
category (the output is the per-category sanitization, of the same length,
so a category whose items were all dropped survives empty), and the request
pipeline fails exactly when zero work items survive across all categories. -/
theorem request_fails_iff_no_items (cats : List Category)
    (h : ∀ c ∈ cats, c.key ≠ "" ∧ c.name ≠ "") :
    ensureCategoryKeys cats = Except.ok (cats.map sanitizeCategory) ∧
    (cats.map sanitizeCategory).length = cats.length ∧
    (isFailure (processRequestCategories cats) = true ↔
      totalWorkItemCount (cats.map sanitizeCategory) = 0) := by
  have hok : ensureCategoryKeys cats = Except.ok (cats.map sanitizeCategory) :=
    ensureAux_ok cats 0 (fun c hc => by have := h c hc; tauto)
  refine ⟨hok, by simp, ?_⟩
  unfold processRequestCategories
  by_cases hnil : cats.length = 0
  · have hcats : cats = [] := List.length_eq_zero.mp hnil
    subst hcats
    simp [isFailure, totalWorkItemCount]
  · rw [if_neg hnil, hok]
    by_cases htot : totalWorkItemCount (cats.map sanitizeCategory) = 0
    · simp [htot, isFailure]
    · simp [htot, isFailure]

/-- Witness for C5 at a concrete single-category request with one valid item. -/
theorem request_fails_iff_no_items_witness :
    ensureCategoryKeys [exampleKitchenCategory] =
      Except.ok ([exampleKitchenCategory].map sanitizeCategory) ∧
    ([exampleKitchenCategory].map sanitizeCategory).length = [exampleKitchenCategory].length ∧
    (isFailure (processRequestCategories [exampleKitchenCategory]) = true ↔
      totalWorkItemCount ([exampleKitchenCategory].map sanitizeCategory) = 0) :=
  request_fails_iff_no_items [exampleKitchenCategory] (by decide)

theorem normalize_canonical (t : String) :
    normalizeToCanonicalMeasurementType t = "sqft" ∨
    normalizeToCanonicalMeasurementType t = "linear-foot" ∨
    normalizeToCanonicalMeasurementType t = "by-unit" := by
  simp only [normalizeToCanonicalMeasurementType]
  split_ifs <;> simp

theorem normType_idem (t : String) :
    normalizeToCanonicalMeasurementType (normalizeToCanonicalMeasurementType t) =
      normalizeToCanonicalMeasurementType t := by
  rcases normalize_canonical t with h | h | h <;> rw [h] <;> decide

theorem map_idem {α : Type} (f : α → α) (hf : ∀ x, f (f x) = f x) (l : List α) :
    (l.map f).map f = l.map f := by
  induction l with
  | nil => rfl
  | cons x xs ih => simp [ih, hf]

theorem enforceWorkItem_idem (key : String) (item : WorkItem) :
    enforceWorkItem key (enforceWorkItem key item) = enforceWorkItem key item := by
  cases item
  simp [enforceWorkItem, normType_idem]

theorem enforceCategory_idem (category : Category) :
    enforceCategory (enforceCategory category) = enforceCategory category := by
  cases category with
  | mk nm ky items =>
      simp [enforceCategory]
      first
      | exact map_idem _ (enforceWorkItem_idem ky) items
      | exact fun a _ => enforceWorkItem_idem ky a

theorem enforceCustomerInfo_idem (ci : CustomerInfo) :
    enforceCustomerInfo (enforceCustomerInfo ci) = enforceCustomerInfo ci := by
  obtain ⟨f1, f2, f3, f4, f5, f6, f7, f8, f9, f10, f11, f12, f13, f14, f15, f16,
    f17, f18, f19⟩ := ci
  by_cases h : f16 ≠ "" ∨ f18 ≠ ""
  · simp [enforceCustomerInfo, h]
  · simp [enforceCustomerInfo, h]

/-- C6: the Invariant Enforcer pass (category-key stamping, measurement-type
normalization on items and surfaces, composite street-address derivation) is
idempotent: applying it twice to any project document equals applying it
once. -/
theorem enforceProject_idempotent (p : Project) :
    enforceProject (enforceProject p) = enforceProject p := by
  cases p
  simp only [enforceProject, Project.mk.injEq]
  exact ⟨enforceCustomerInfo_idem _, map_idem _ enforceCategory_idem _, trivial, trivial, trivial⟩

/-- C7 counterexample: a persisted standard-type work item carrying a
non-blank `customWorkTypeName` is legal and untouched by the Repair Service,
so after repair the biconditional `type = custom-marker ↔ name non-blank`
fails in the right-to-left direction at this item. -/
theorem customTypeLaw_iff_false :
    repairWorkItem c7StandardNamedItem = c7StandardNamedItem ∧
    ¬(((repairWorkItem c7StandardNamedItem).type = "custom-work-type") ↔
       jsTrim (repairWorkItem c7StandardNamedItem).customWorkTypeName ≠ "") := by
  refine ⟨by decide, ?_⟩
  intro hiff
  have : (repairWorkItem c7StandardNamedItem).type = "custom-work-type" :=
    hiff.mpr (by decide)
  exact absurd this (by decide)

/-- C7 (amended): after the Repair Service has run, every work item whose
`type` equals the custom-type marker has a non-blank `customWorkTypeName`
(the forward implication of the claimed law; the converse fails, per the
counterexample), and the repair replaces a blank name of a custom-type item
with the fixed placeholder `'Unnamed Custom Work'`. -/
theorem customTypeLaw_forward :
    (∀ p : Project, ∀ cat ∈ (repairProject p).categories, ∀ it ∈ cat.workItems,
       it.type = "custom-work-type" → jsTrim it.customWorkTypeName ≠ "") ∧
    (∀ it : WorkItem, it.type = "custom-work-type" → jsTrim it.customWorkTypeName = "" →
       repairWorkItem it = { it with customWorkTypeName := "Unnamed Custom Work" }) := by
  constructor
  · intro p cat hcat it hit htype
    obtain ⟨c, _, rfl⟩ := List.mem_map.mp hcat
    rw [show (repairCategory c).workItems = c.workItems.map repairWorkItem from rfl] at hit
    obtain ⟨r, _, rfl⟩ := List.mem_map.mp hit
    unfold repairWorkItem at htype ⊢
    by_cases hcond : r.type = "custom-work-type" ∧
        (r.customWorkTypeName = "" ∨ jsTrim r.customWorkTypeName = "")
    · rw [if_pos hcond]
      exact (by decide : jsTrim "Unnamed Custom Work" ≠ "")
    · rw [if_neg hcond] at htype ⊢
      have : ¬(r.customWorkTypeName = "" ∨ jsTrim r.customWorkTypeName = "") :=
        fun hor => hcond ⟨htype, hor⟩
      exact fun htrim => this (Or.inr htrim)
  · intro it htype hblank
    unfold repairWorkItem
    rw [if_pos ⟨htype, Or.inr hblank⟩]

/-- Witness for C7 at a concrete project holding a blank-named custom-type
item: after repair its name is non-blank. -/
theorem customTypeLaw_forward_witness :
    jsTrim (repairWorkItem c7BlankCustomItem).customWorkTypeName ≠ "" :=
  customTypeLaw_forward.1 c7Project (repairCategory c7Category)
    (by simp [c7Project, repairProject])
    (repairWorkItem c7BlankCustomItem)
    (by simp [c7Category, repairCategory])
    (by decide)
